import Mathlib

/-!
Shallow embedding of `src/server/server.py` (TPF2 Real-Time Telemetry Server):
the `TelemetryStore` (update / get / subscribe / unsubscribe), the watchdog
reload path (`TelemetryFileHandler._reload`), the `/api/telemetry` pull
endpoint and the `/ws` subscriber session loop.

Modelling conventions:
* JSON documents are `JVal` (objects are ordered association lists, matching
  Python's insertion-ordered `dict`); JSON numbers are modelled as `Int`
  (wall-clock values are whole seconds in every claim under study, so the
  float/int distinction of `time.time()` vs `int(time.time())` is abstracted
  to a single `now : Nat`).
* The standard-library call `json.loads(raw)` is modelled by its outcome, an
  `Except String JVal` argument (`.error` = `json.JSONDecodeError`); the
  claims under study are all conditional on parse success or failure, never
  on the parser's internals.
* `json.dumps` with its default separators is `dumps`; starlette's
  `JSONResponse.render` (used by the FastAPI `JSONResponse` return type of
  `/api/telemetry`) serializes with compact separators `","`/`":"`, modelled
  by `dumpsCompact`.  `ensure_ascii` escaping of non-ASCII characters is not
  modelled (all payloads under study are ASCII); control-character escaping
  is.
* `asyncio.Queue(maxsize=4)` channels are lists of frames with a
  non-blocking `putNowait` that drops on full, exactly as
  `q.put_nowait` under `except asyncio.QueueFull: pass`.
* A Python exception escaping a modelled function is an explicit
  `Option PyErr` result component; state mutated before the raise is kept,
  as in Python.
-/

namespace TPF2

/-- A JSON value as produced by `json.loads`: objects keep insertion order. -/
inductive JVal where
  | null : JVal
  | bool (b : Bool) : JVal
  | num (n : Int) : JVal
  | str (s : String) : JVal
  | arr (elems : List JVal) : JVal
  | obj (fields : List (String × JVal)) : JVal
  deriving Repr

/-- `d.get(k)` on a Python dict: first (only, for parsed JSON) binding wins. -/
def dictGet : List (String × JVal) → String → Option JVal
  | [], _ => none
  | (k', v') :: rest, k => if k' = k then some v' else dictGet rest k

/-- `d[k] = v` on a Python dict: replace in place if present, else append. -/
def dictSet : List (String × JVal) → String → JVal → List (String × JVal)
  | [], k, v => [(k, v)]
  | (k', v') :: rest, k, v =>
    if k' = k then (k, v) :: rest else (k', v') :: dictSet rest k v

/-- Python truthiness of a JSON value (`None`, `False`, `0`, `""`, `[]`, `{}`
are falsy). -/
def pyTruthy : JVal → Bool
  | .null => false
  | .bool b => b
  | .num n => n != 0
  | .str s => s ≠ ""
  | .arr xs => !xs.isEmpty
  | .obj fs => !fs.isEmpty

/-- Whether a JSON value is an object (a Python dict after `json.loads`). -/
def JVal.isObj : JVal → Bool
  | .obj _ => true
  | _ => false

/-- Python `len`: defined on strings, lists and dicts; `none` models the
`TypeError` raised on other values. -/
def pyLen : JVal → Option Nat
  | .str s => some s.length
  | .arr xs => some xs.length
  | .obj fs => some fs.length
  | _ => none

def hexDigit (n : Nat) : Char :=
  if n < 10 then Char.ofNat (48 + n) else Char.ofNat (87 + n)

def hex4 (n : Nat) : String :=
  String.mk [hexDigit (n / 4096 % 16), hexDigit (n / 256 % 16),
             hexDigit (n / 16 % 16), hexDigit (n % 16)]

/-- JSON string escaping as performed by `json.dumps` on ASCII payloads. -/
def escapeChar (c : Char) : String :=
  if c = '"' then "\\\""
  else if c = '\\' then "\\\\"
  else if c = '\n' then "\\n"
  else if c = '\r' then "\\r"
  else if c = '\t' then "\\t"
  else if c.toNat < 32 then "\\u" ++ hex4 c.toNat
  else String.singleton c

def escapeJsonString (s : String) : String :=
  String.join (s.toList.map escapeChar)

mutual

/-- `json.dumps` with item separator `isep` and key separator `ksep`. -/
def dumpsWith (isep ksep : String) : JVal → String
  | .null => "null"
  | .bool true => "true"
  | .bool false => "false"
  | .num n => toString n
  | .str s => "\"" ++ escapeJsonString s ++ "\""
  | .arr xs => "[" ++ dumpsList isep ksep xs ++ "]"
  | .obj fs => "\x7b" ++ dumpsFields isep ksep fs ++ "\x7d"

def dumpsList (isep ksep : String) : List JVal → String
  | [] => ""
  | [x] => dumpsWith isep ksep x
  | x :: y :: rest => dumpsWith isep ksep x ++ isep ++ dumpsList isep ksep (y :: rest)

def dumpsFields (isep ksep : String) : List (String × JVal) → String
  | [] => ""
  | [(k, v)] => "\"" ++ escapeJsonString k ++ "\"" ++ ksep ++ dumpsWith isep ksep v
  | (k, v) :: p :: rest =>
    "\"" ++ escapeJsonString k ++ "\"" ++ ksep ++ dumpsWith isep ksep v ++ isep ++
      dumpsFields isep ksep (p :: rest)

end

/-- `json.dumps(x)` with the default separators `", "` and `": "`. -/
def dumps (v : JVal) : String := dumpsWith ", " ": " v

/-- starlette `JSONResponse.render`: `json.dumps` with separators `","`, `":"`. -/
def dumpsCompact (v : JVal) : String := dumpsWith "," ":" v

/-- A Python exception escaping a modelled function. -/
inductive PyErr where
  | attributeError : PyErr
  | typeError : PyErr
  deriving Repr, DecidableEq

/-- `asyncio.Queue(maxsize=4)` holding serialized frames (oldest first). -/
abbrev Channel := List String

/-- `q.put_nowait(x)` guarded by `except asyncio.QueueFull: pass`:
enqueue when below capacity 4, silently drop otherwise. -/
def putNowait (q : Channel) (x : String) : Channel :=
  if q.length < 4 then q ++ [x] else q

/-- The mutable state of the module-level `TelemetryStore` instance. -/
structure StoreState where
  data : List (String × JVal)
  last_update : Nat
  file_mtime : Int
  listeners : List Channel
  deriving Repr

/-- The store as constructed by `TelemetryStore.__init__`. -/
def initialStore : StoreState :=
  { data := [], last_update := 0, file_mtime := 0, listeners := [] }

/-- The timestamp-injection step of `TelemetryStore.update`: when
`data.get("timestamp")` is falsy, set `data["timestamp"] = int(time.time())`. -/
def enrichTimestamp (now : Nat) (fields : List (String × JVal)) :
    List (String × JVal) :=
  if pyTruthy ((dictGet fields "timestamp").getD .null) then fields
  else dictSet fields "timestamp" (.num (Int.ofNat now))

/-- `TelemetryStore.update(raw)`.  `parsed` is the outcome of
`json.loads(raw)`; `now` the wall clock.  Returns the store state after the
call together with the exception escaping it, if any (state mutated before a
raise is kept, as in Python).  Steps, in source order: on decode error log
and return; `data.get("timestamp")` raises `AttributeError` on a non-dict;
inject the timestamp when falsy; serialize once; replace `_data` and stamp
`last_update` under the lock; `put_nowait` the one serialized frame into
every listener queue, dropping on full; the final `log.info` computes
`len(data.get(k, []))` for `vehicles`/`lines`/`stations`, raising
`TypeError` when a present value has no `len`. -/
def TelemetryStore.update (now : Nat) (st : StoreState)
    (parsed : Except String JVal) : StoreState × Option PyErr :=
  match parsed with
  | .error _ => (st, none)
  | .ok v =>
    match v with
    | .obj fields =>
      let data := enrichTimestamp now fields
      let broadcast_raw := dumps (.obj data)
      let st := { st with data := data, last_update := now }
      let st := { st with listeners := st.listeners.map (fun q => putNowait q broadcast_raw) }
      let raised : Option PyErr :=
        match pyLen ((dictGet data "vehicles").getD (.arr [])),
              pyLen ((dictGet data "lines").getD (.arr [])),
              pyLen ((dictGet data "stations").getD (.arr [])) with
        | some _, some _, some _ => none
        | _, _, _ => some .typeError
      (st, raised)
    | _ => (st, some .attributeError)

/-- `TelemetryStore.get`: `dict(self._data)` — at the value level the
returned document equals the stored one (its heap-level shallowness is
modelled separately below). -/
def TelemetryStore.get (st : StoreState) : List (String × JVal) :=
  st.data

/-- `TelemetryStore.subscribe`: register a fresh empty bounded queue, return
its position in the listener list. -/
def TelemetryStore.subscribe (st : StoreState) : StoreState × Nat :=
  ({ st with listeners := st.listeners ++ [[]] }, st.listeners.length)

/-- `TelemetryStore.unsubscribe`: remove the queue at the given position;
an out-of-range position is tolerated (`except ValueError: pass`). -/
def TelemetryStore.unsubscribe (st : StoreState) (i : Nat) : StoreState :=
  { st with listeners := st.listeners.eraseIdx i }

/-- `GET /api/telemetry`: `JSONResponse(content=await store.get())`, rendered
by starlette with compact separators. -/
def api_telemetry (st : StoreState) : String :=
  dumpsCompact (.obj (TelemetryStore.get st))

/-- An `OSError` (`PermissionError` is a subclass) raised by `Path.stat` or
`Path.read_text`. -/
inductive OSErr where
  | fileNotFound : OSErr
  | permissionError : OSErr
  deriving Repr, DecidableEq

/-- The environment one run of `TelemetryFileHandler._reload` interacts
with: the outcome of `self._path.stat().st_mtime`, the outcome of
`self._path.read_text(...)`, the outcome of `json.loads` on that content,
and the wall clock. -/
structure ReloadInput where
  statResult : Except OSErr Int
  readResult : Except OSErr String
  parsed : Except String JVal
  now : Nat

/-- Result of one `_reload` run: the store afterwards, the exception
escaping the coroutine (if any), and whether `store.update` was invoked. -/
structure ReloadOutcome where
  st : StoreState
  raised : Option PyErr
  ranUpdate : Bool
  deriving Repr

/-- The part of `_reload` before `await asyncio.sleep(0.05)`: stat the file
(`OSError` is caught by the surrounding `try`), return early when the
observed mtime equals `store.file_mtime`, otherwise store the new mtime
immediately.  The `Bool` says whether the run proceeds past the debounce
sleep. -/
def reloadCheck (st : StoreState) (statResult : Except OSErr Int) :
    StoreState × Bool :=
  match statResult with
  | .error _ => (st, false)
  | .ok mtime =>
    if mtime = st.file_mtime then (st, false)
    else ({ st with file_mtime := mtime }, true)

/-- The part of `_reload` after the debounce sleep: read the file (`OSError`
/ `PermissionError` is caught and logged), abandon the cycle when the
content strips to empty, otherwise call `store.update`.  An exception
raised by `update` (e.g. `AttributeError`) is not an `OSError`, so it
escapes.  Returns (state, escaping exception, whether update ran). -/
def reloadRead (now : Nat) (st : StoreState) (readResult : Except OSErr String)
    (parsed : Except String JVal) : StoreState × Option PyErr × Bool :=
  match readResult with
  | .error _ => (st, none, false)
  | .ok content =>
    if content.trim = "" then (st, none, false)
    else
      let r := TelemetryStore.update now st parsed
      (r.1, r.2, true)

/-- `TelemetryFileHandler._reload`: the mtime check-and-store phase, then —
only if it proceeds — the debounce sleep followed by the read-and-update
phase. -/
def TelemetryFileHandler.reload (inp : ReloadInput) (st : StoreState) :
    ReloadOutcome :=
  let c := reloadCheck st inp.statResult
  if c.2 then
    let r := reloadRead inp.now c.1 inp.readResult inp.parsed
    ⟨r.1, r.2.1, r.2.2⟩
  else ⟨c.1, none, false⟩

/-- The keepalive frame `json.dumps({"type": "ping", "ts": time.time()})`
(wall clock abstracted to whole seconds). -/
def pingMsg (now : Nat) : String :=
  dumps (.obj [("type", .str "ping"), ("ts", .num (Int.ofNat now))])

/-- One iteration of the `/ws` loop, seen through the outcome of
`asyncio.wait_for(queue.get(), timeout=30.0)`: either a frame arrived
within 30 s (and sending it succeeded or raised), or the wait timed out
(and sending the ping succeeded or raised), or the peer disconnected while
waiting. -/
inductive WsEvent where
  | frame (raw : String) (sendOk : Bool) : WsEvent
  | timeout (now : Nat) (sendOk : Bool) : WsEvent
  | disconnect : WsEvent

/-- One iteration of the `/ws` loop: the texts successfully sent to the
peer and whether the loop continues.  A failed `send_text` of a frame is
caught by the outer handlers and ends the session; a failed ping send hits
`break`. -/
def sessionStep : WsEvent → List String × Bool
  | .frame raw true => ([raw], true)
  | .frame _ false => ([], false)
  | .timeout now true => ([pingMsg now], true)
  | .timeout _ false => ([], false)
  | .disconnect => ([], false)

/-- The `/ws` loop run over a schedule of wait outcomes: concatenation of
the sends of each iteration, stopping at the first terminating one. -/
def sessionRun : List WsEvent → List String
  | [] => []
  | ev :: evs =>
    let s := sessionStep ev
    if s.2 then s.1 ++ sessionRun evs else s.1

/-- The connect phase of `websocket_endpoint`, before the first wait on the
queue: `store.subscribe()`, then `await store.get()`, then — only if the
snapshot dict is truthy (non-empty) — send `json.dumps(current)`.  Returns
(store after subscribe, queue index, texts sent on connect). -/
def wsConnect (st : StoreState) : StoreState × Nat × List String :=
  let s := TelemetryStore.subscribe st
  let current := TelemetryStore.get s.1
  let sent := if current.isEmpty then [] else [dumps (.obj current)]
  (s.1, s.2, sent)

/-- A whole `/ws` session against a fixed store state: the connect-phase
sends happen strictly before any loop iteration's. -/
def wsSession (st : StoreState) (evs : List WsEvent) : List String :=
  (wsConnect st).2.2 ++ sessionRun evs

/-! ### Heap-level model of `TelemetryStore.get`

`get` executes `return dict(self._data)`.  Whether the caller can mutate
shared store state through the returned value is a question about object
identity, so this fragment is modelled with an explicit heap: dicts and
lists are heap objects addressed by `Nat`, immediate values and references
are `PyVal`. -/

/-- An immediate Python value or a reference to a heap object. -/
inductive PyVal where
  | vnone : PyVal
  | vbool (b : Bool) : PyVal
  | vint (n : Int) : PyVal
  | vstr (s : String) : PyVal
  | ref (a : Nat) : PyVal
  deriving Repr, DecidableEq

/-- A mutable Python container living on the heap. -/
inductive PyObj where
  | dict (fields : List (String × PyVal)) : PyObj
  | pylist (elems : List PyVal) : PyObj
  deriving Repr, DecidableEq

/-- The heap: allocated objects by address, plus the next fresh address. -/
structure Heap where
  objs : List (Nat × PyObj)
  next : Nat
  deriving Repr

def Heap.lookup (h : Heap) (a : Nat) : Option PyObj :=
  (h.objs.find? (fun p => p.1 = a)).map Prod.snd

def Heap.alloc (h : Heap) (o : PyObj) : Heap × Nat :=
  (⟨h.objs ++ [(h.next, o)], h.next + 1⟩, h.next)

def Heap.setObj (h : Heap) (a : Nat) (o : PyObj) : Heap :=
  ⟨h.objs.map (fun p => if p.1 = a then (a, o) else p), h.next⟩

/-- `dict(d)`: allocate a fresh dict carrying the same bindings — the
values (in particular references to nested lists/dicts) are shared, not
copied. -/
def dictCopy (h : Heap) (a : Nat) : Heap × Nat :=
  match h.lookup a with
  | some (.dict fs) => h.alloc (.dict fs)
  | _ => (h, a)

/-- Heap-level `TelemetryStore.get`: `dict(self._data)` where `dataAddr` is
the address of the live `_data` dict. -/
def TelemetryStore.getH (h : Heap) (dataAddr : Nat) : Heap × Nat :=
  dictCopy h dataAddr

/-- `d[k]` read on a heap dict. -/
def dictGetH (h : Heap) (a : Nat) (k : String) : Option PyVal :=
  match h.lookup a with
  | some (.dict fs) => (fs.find? (fun p => p.1 = k)).map Prod.snd
  | _ => none

/-- `d[k] = v` on a heap dict (in-place mutation of the object at `a`). -/
def dictSetH (h : Heap) (a : Nat) (k : String) (v : PyVal) : Heap :=
  match h.lookup a with
  | some (.dict fs) =>
    h.setObj a (.dict (if fs.any (fun p => p.1 = k)
      then fs.map (fun p => if p.1 = k then (k, v) else p) else fs ++ [(k, v)]))
  | _ => h

/-- `l.append(v)` on a heap list (in-place mutation of the object at `a`). -/
def listAppendH (h : Heap) (a : Nat) (v : PyVal) : Heap :=
  match h.lookup a with
  | some (.pylist xs) => h.setObj a (.pylist (xs ++ [v]))
  | _ => h

/-- The document observed by dereferencing a value through the heap, with a
recursion-depth fuel (dangling or too-deep references read as `null`). -/
def deepVal : Nat → Heap → PyVal → JVal
  | 0, _, _ => .null
  | _ + 1, _, .vnone => .null
  | _ + 1, _, .vbool b => .bool b
  | _ + 1, _, .vint n => .num n
  | _ + 1, _, .vstr s => .str s
  | fuel + 1, h, .ref a =>
    match h.lookup a with
    | some (.dict fs) => .obj (fs.map (fun p => (p.1, deepVal fuel h p.2)))
    | some (.pylist xs) => .arr (xs.map (fun v => deepVal fuel h v))
    | none => .null

/-! ### Supporting lemmas -/

theorem dictGet_dictSet_self (fs : List (String × JVal)) (k : String) (v : JVal) :
    dictGet (dictSet fs k v) k = some v := by
  induction fs with
  | nil => simp [dictSet, dictGet]
  | cons p rest ih =>
    obtain ⟨k', v'⟩ := p
    by_cases h : k' = k
    · simp [dictSet, dictGet, h]
    · simp [dictSet, dictGet, h, ih]

theorem getElem!_map_channels (f : Channel → Channel) (l : List Channel) (i : Nat)
    (hi : i < l.length) : (l.map f)[i]! = f l[i]! := by
  rw [getElem!_pos (l.map f) i (by simpa using hi), getElem!_pos l i hi,
    List.getElem_map]

/-! ### Claims -/

/-- **C2.** For every input string that is not parseable as JSON,
`Store.update` returns without modifying the Store: the state (hence the
snapshot and `lastUpdate`) after the attempted update equals its value
before, no frame is broadcast, no exception escapes, and `get()` still
returns the previous snapshot. -/
theorem update_malformed_is_noop (now : Nat) (st : StoreState) (msg : String) :
    TelemetryStore.update now st (.error msg) = (st, none) ∧
    TelemetryStore.get (TelemetryStore.update now st (.error msg)).1
      = TelemetryStore.get st :=
  ⟨rfl, rfl⟩

/-- **C10.** For every input that parses as valid JSON but whose top-level
value is not an object, `Store.update` raises an escaping `AttributeError`
(from `data.get("timestamp")`) rather than logging and discarding, leaving
the store untouched: only JSON decode failures are handled. -/
theorem update_non_object_raises (now : Nat) (st : StoreState) (v : JVal)
    (h : v.isObj = false) :
    TelemetryStore.update now st (.ok v) = (st, some PyErr.attributeError) := by
  cases v with
  | obj fs => simp [JVal.isObj] at h
  | null => rfl
  | bool b => rfl
  | num n => rfl
  | str s => rfl
  | arr xs => rfl

/-- Witness for C10 at the concrete non-object input `[]` (a JSON array). -/
theorem update_non_object_raises_witness :
    TelemetryStore.update 7 initialStore (.ok (.arr []))
      = (initialStore, some PyErr.attributeError) :=
  update_non_object_raises 7 initialStore (.arr []) (by decide)

/-- **C4.** For every successfully parsed object whose top-level
`timestamp` is absent or falsy, `Store.update` injects the current
wall-clock time (epoch seconds) as `timestamp` before storing and
broadcasting (every enqueued frame is the serialization of the enriched
stored document); a document with a truthy `timestamp` is kept entirely
unchanged. -/
theorem update_timestamp_injection (now : Nat) (st : StoreState)
    (fields : List (String × JVal)) :
    (pyTruthy ((dictGet fields "timestamp").getD .null) = false →
      dictGet (TelemetryStore.update now st (.ok (.obj fields))).1.data "timestamp"
        = some (.num (Int.ofNat now))) ∧
    (pyTruthy ((dictGet fields "timestamp").getD .null) = true →
      (TelemetryStore.update now st (.ok (.obj fields))).1.data = fields) ∧
    ((TelemetryStore.update now st (.ok (.obj fields))).1.listeners
      = st.listeners.map (fun q =>
          putNowait q (dumps (.obj (TelemetryStore.update now st (.ok (.obj fields))).1.data)))) := by
  refine ⟨?_, ?_, rfl⟩
  · intro h
    show dictGet (enrichTimestamp now fields) "timestamp" = _
    unfold enrichTimestamp
    rw [if_neg (by simp [h])]
    exact dictGet_dictSet_self fields "timestamp" (.num (Int.ofNat now))
  · intro h
    show enrichTimestamp now fields = fields
    unfold enrichTimestamp
    rw [if_pos (by simp [h])]

/-- Witness for C4: a document without `timestamp` gets `now = 100`
injected; a document with the truthy `timestamp` 5 is kept unchanged. -/
theorem update_timestamp_injection_witness :
    (dictGet (TelemetryStore.update 100 initialStore
        (.ok (.obj [("vehicles", .arr [])]))).1.data "timestamp"
      = some (.num 100)) ∧
    ((TelemetryStore.update 100 initialStore
        (.ok (.obj [("timestamp", .num 5)]))).1.data = [("timestamp", .num 5)]) :=
  ⟨(update_timestamp_injection 100 initialStore [("vehicles", .arr [])]).1 (by decide),
   (update_timestamp_injection 100 initialStore [("timestamp", .num 5)]).2.1 (by decide)⟩

/-- **C5.** A newly connected subscriber session registers its channel and,
if a non-empty snapshot exists at connect time, sends exactly that full
serialized snapshot before any loop iteration (its first wait on the
channel); with an empty snapshot nothing is sent on connect. -/
theorem ws_connect_initial_snapshot (st : StoreState) (evs : List WsEvent) :
    ((TelemetryStore.get st).isEmpty = false →
      wsSession st evs = dumps (.obj (TelemetryStore.get st)) :: sessionRun evs) ∧
    ((TelemetryStore.get st).isEmpty = true →
      wsSession st evs = sessionRun evs) ∧
    (wsConnect st).1.listeners = st.listeners ++ [[]] := by
  refine ⟨?_, ?_, rfl⟩
  · intro h
    unfold wsSession wsConnect
    simp [TelemetryStore.get, TelemetryStore.subscribe, h] at *
    simp [h]
  · intro h
    unfold wsSession wsConnect
    simp [TelemetryStore.get, TelemetryStore.subscribe, h] at *
    simp [h]

/-- Witness for C5: with snapshot `{"a": 1}` the session's first sent text
is the serialized snapshot; with the empty initial snapshot nothing is sent
before the loop. -/
theorem ws_connect_initial_snapshot_witness :
    wsSession { data := [("a", .num 1)], last_update := 0, file_mtime := 0,
                listeners := [] } []
      = [dumps (.obj [("a", .num 1)])] ∧
    wsSession initialStore [] = [] :=
  ⟨(ws_connect_initial_snapshot
      { data := [("a", .num 1)], last_update := 0, file_mtime := 0,
        listeners := [] } []).1 (by decide),
   (ws_connect_initial_snapshot initialStore []).2.1 (by decide)⟩

/-- **C9.** A session whose wait on the channel times out after the 30 s
idle window sends exactly one keepalive frame — the JSON object with
`type = "ping"` and `ts` the current wall clock — and keeps looping; a
session connected while no snapshot exists sends nothing before its first
such ping. -/
theorem session_idle_keepalive (t : Nat) (st : StoreState) (evs : List WsEvent)
    (hempty : st.data = []) :
    sessionStep (.timeout t true) = ([pingMsg t], true) ∧
    pingMsg 40 = "\x7b\"type\": \"ping\", \"ts\": 40\x7d" ∧
    wsSession st (.timeout t true :: evs) = pingMsg t :: sessionRun evs := by
  refine ⟨rfl, rfl, ?_⟩
  show (wsConnect st).2.2 ++ sessionRun (.timeout t true :: evs) = _
  have hc : (wsConnect st).2.2 = [] := by
    unfold wsConnect
    simp [TelemetryStore.get, TelemetryStore.subscribe, hempty]
  rw [hc]
  rfl

/-- Witness for C9: from the empty initial store, a session whose first
two waits time out sends exactly the two pings and nothing else. -/
theorem session_idle_keepalive_witness :
    wsSession initialStore [.timeout 40 true, .timeout 70 true]
      = [pingMsg 40, pingMsg 70] := by
  have h := session_idle_keepalive 40 initialStore [.timeout 70 true] rfl
  rw [h.2.2]
  have h' := session_idle_keepalive 70 initialStore [] rfl
  simp [sessionRun, sessionStep]

/-- **C1.** For every successful `Store.update`, the fan-out is
non-blocking and isolated: the listener list keeps its length (every
channel stays registered), a channel with available capacity (fewer than 4
queued frames) receives exactly one copy of the one serialized frame, an
already-full channel receives nothing, and whether the update completes
without raising is independent of the channels' states. -/
theorem update_fanout_nonblocking (now : Nat) (st : StoreState)
    (fields : List (String × JVal)) (i : Nat) (hi : i < st.listeners.length) :
    ((TelemetryStore.update now st (.ok (.obj fields))).1.listeners.length
        = st.listeners.length) ∧
    (st.listeners[i]!.length < 4 →
      (TelemetryStore.update now st (.ok (.obj fields))).1.listeners[i]!
        = st.listeners[i]! ++ [dumps (.obj (enrichTimestamp now fields))]) ∧
    (¬ st.listeners[i]!.length < 4 →
      (TelemetryStore.update now st (.ok (.obj fields))).1.listeners[i]!
        = st.listeners[i]!) ∧
    ((TelemetryStore.update now st (.ok (.obj fields))).1.data
        = enrichTimestamp now fields) ∧
    ((TelemetryStore.update now st (.ok (.obj fields))).2
        = (TelemetryStore.update now { st with listeners := [] }
            (.ok (.obj fields))).2) := by
  refine ⟨?_, ?_, ?_, rfl, rfl⟩
  · show (st.listeners.map _).length = _
    exact List.length_map st.listeners _
  · intro hcap
    show (st.listeners.map
      (fun q => putNowait q (dumps (.obj (enrichTimestamp now fields)))))[i]! = _
    rw [getElem!_map_channels _ st.listeners i hi]
    unfold putNowait
    rw [if_pos hcap]
  · intro hcap
    show (st.listeners.map
      (fun q => putNowait q (dumps (.obj (enrichTimestamp now fields)))))[i]! = _
    rw [getElem!_map_channels _ st.listeners i hi]
    unfold putNowait
    rw [if_neg hcap]

/-- Witness for C1: one update into a store with a one-frame channel and a
full (4-frame) channel — the first receives the frame, the second does
not. -/
theorem update_fanout_nonblocking_witness :
    ((TelemetryStore.update 100
        { data := [], last_update := 0, file_mtime := 0,
          listeners := [["a"], ["b", "c", "d", "e"]] }
        (.ok (.obj []))).1.listeners[0]!
      = ["a"] ++ [dumps (.obj (enrichTimestamp 100 []))]) ∧
    ((TelemetryStore.update 100
        { data := [], last_update := 0, file_mtime := 0,
          listeners := [["a"], ["b", "c", "d", "e"]] }
        (.ok (.obj []))).1.listeners[1]!
      = ["b", "c", "d", "e"]) :=
  ⟨(update_fanout_nonblocking 100
      { data := [], last_update := 0, file_mtime := 0,
        listeners := [["a"], ["b", "c", "d", "e"]] } [] 0 (by decide)).2.1
      (by decide),
   (update_fanout_nonblocking 100
      { data := [], last_update := 0, file_mtime := 0,
        listeners := [["a"], ["b", "c", "d", "e"]] } [] 1 (by decide)).2.2.1
      (by decide)⟩

theorem update_preserves_file_mtime (now : Nat) (st : StoreState)
    (p : Except String JVal) :
    (TelemetryStore.update now st p).1.file_mtime = st.file_mtime := by
  cases p with
  | error m => rfl
  | ok v => cases v <;> rfl

theorem reloadRead_preserves_file_mtime (now : Nat) (st : StoreState)
    (rr : Except OSErr String) (p : Except String JVal) :
    (reloadRead now st rr p).1.file_mtime = st.file_mtime := by
  cases rr with
  | error e => rfl
  | ok c =>
    by_cases h : c.trim = ""
    · simp [reloadRead, h]
    · simp [reloadRead, h, update_preserves_file_mtime]

theorem reload_file_mtime (inp : ReloadInput) (st : StoreState) (m : Int)
    (h : inp.statResult = .ok m) :
    (TelemetryFileHandler.reload inp st).st.file_mtime = m := by
  by_cases hm : m = st.file_mtime
  · simp [TelemetryFileHandler.reload, reloadCheck, h, hm]
  · simp [TelemetryFileHandler.reload, reloadCheck, h, hm,
      reloadRead_preserves_file_mtime]

/-- **C3.** The mtime dedup: the check phase — which runs before the
debounce sleep — leaves `fileModTime` equal to the observed mtime (storing
it when it differs), and for two consecutive events observing the identical
mtime the second full reload run is a no-op: it neither reads-and-updates
(`ranUpdate = false`) nor changes the store, so the read-and-update runs at
most once across the two events. -/
theorem reload_coalesces_identical_mtime (st : StoreState) (m : Int)
    (inp1 inp2 : ReloadInput) (h1 : inp1.statResult = .ok m)
    (h2 : inp2.statResult = .ok m) :
    ((reloadCheck st (.ok m)).1.file_mtime = m) ∧
    (m = st.file_mtime →
      TelemetryFileHandler.reload inp1 st = ⟨st, none, false⟩) ∧
    (TelemetryFileHandler.reload inp2 (TelemetryFileHandler.reload inp1 st).st
      = ⟨(TelemetryFileHandler.reload inp1 st).st, none, false⟩) := by
  have hfm := reload_file_mtime inp1 st m h1
  refine ⟨?_, ?_, ?_⟩
  · by_cases hm : m = st.file_mtime
    · simp [reloadCheck, hm]
    · simp [reloadCheck, hm]
  · intro hm
    simp [TelemetryFileHandler.reload, reloadCheck, h1, hm]
  · generalize hst : (TelemetryFileHandler.reload inp1 st).st = st1 at hfm ⊢
    simp [TelemetryFileHandler.reload, reloadCheck, h2, hfm]

/-- Witness for C3: two events both observing mtime 5 on the initial store
(`fileModTime = 0`): the second run leaves the state alone and never
reaches the read-and-update. -/
theorem reload_coalesces_identical_mtime_witness :
    ((reloadCheck initialStore (.ok 5)).1.file_mtime = 5) ∧
    (TelemetryFileHandler.reload ⟨Except.ok 5, Except.ok "", Except.error "e", 3⟩
        (TelemetryFileHandler.reload
          ⟨Except.ok 5, Except.ok "\x7b\x7d", Except.ok (.obj []), 2⟩
          initialStore).st
      = ⟨(TelemetryFileHandler.reload
          ⟨Except.ok 5, Except.ok "\x7b\x7d", Except.ok (.obj []), 2⟩
          initialStore).st, none, false⟩) :=
  ⟨(reload_coalesces_identical_mtime initialStore 5
      ⟨Except.ok 5, Except.ok "\x7b\x7d", Except.ok (.obj []), 2⟩
      ⟨Except.ok 5, Except.ok "", Except.error "e", 3⟩ rfl rfl).1,
   (reload_coalesces_identical_mtime initialStore 5
      ⟨Except.ok 5, Except.ok "\x7b\x7d", Except.ok (.obj []), 2⟩
      ⟨Except.ok 5, Except.ok "", Except.error "e", 3⟩ rfl rfl).2.2⟩

/-- Counterexample to **C8** as stated: a cycle abandoned by a read failure
does NOT leave `fileModTime` as if the cycle had not run — the new mtime 5
was already stored before the read, while the pre-cycle value was 0. -/
theorem reload_abandoned_mtime_cex :
    (TelemetryFileHandler.reload
        ⟨Except.ok 5, Except.error OSErr.permissionError, Except.error "bad", 0⟩
        initialStore).st.file_mtime ≠ initialStore.file_mtime := by
  decide

/-- **C8 (amended).** A reload cycle abandoned by a transient file I/O
failure or by empty/whitespace-only content touches neither the snapshot,
nor `lastUpdate`, nor the listeners, lets no exception escape and never
reaches `store.update`; `fileModTime`, however, already holds the mtime
observed by the cycle (stored before the debounce sleep and the read) —
it keeps its old value only when that observation failed or showed no
change. -/
theorem reload_abandoned_amended (inp : ReloadInput) (st : StoreState)
    (habort : match inp.readResult with
              | .error _ => True
              | .ok c => c.trim = "") :
    ((TelemetryFileHandler.reload inp st).st.data = st.data) ∧
    ((TelemetryFileHandler.reload inp st).st.last_update = st.last_update) ∧
    ((TelemetryFileHandler.reload inp st).st.listeners = st.listeners) ∧
    ((TelemetryFileHandler.reload inp st).raised = none) ∧
    ((TelemetryFileHandler.reload inp st).ranUpdate = false) ∧
    ((TelemetryFileHandler.reload inp st).st.file_mtime
      = match inp.statResult with
        | .error _ => st.file_mtime
        | .ok m => if m = st.file_mtime then st.file_mtime else m) := by
  cases hs : inp.statResult with
  | error e => simp [TelemetryFileHandler.reload, reloadCheck, hs]
  | ok m =>
    by_cases hm : m = st.file_mtime
    · simp [TelemetryFileHandler.reload, reloadCheck, hs, hm]
    · cases hr : inp.readResult with
      | error e =>
        simp [TelemetryFileHandler.reload, reloadCheck, reloadRead, hs, hm, hr]
      | ok c =>
        have hc : c.trim = "" := by
          rw [hr] at habort
          exact habort
        simp [TelemetryFileHandler.reload, reloadCheck, reloadRead, hs, hm, hr, hc]

/-- Witness for C8 (amended): a cycle observing mtime 5 whose read raises
`PermissionError` leaves snapshot/`lastUpdate`/listeners untouched, raises
nothing, never updates — and holds `fileModTime = 5`. -/
theorem reload_abandoned_amended_witness :
    ((TelemetryFileHandler.reload
        ⟨Except.ok 5, Except.error OSErr.permissionError, Except.error "bad", 0⟩
        initialStore).st.data = initialStore.data) ∧
    ((TelemetryFileHandler.reload
        ⟨Except.ok 5, Except.error OSErr.permissionError, Except.error "bad", 0⟩
        initialStore).st.last_update = initialStore.last_update) ∧
    ((TelemetryFileHandler.reload
        ⟨Except.ok 5, Except.error OSErr.permissionError, Except.error "bad", 0⟩
        initialStore).st.listeners = initialStore.listeners) ∧
    ((TelemetryFileHandler.reload
        ⟨Except.ok 5, Except.error OSErr.permissionError, Except.error "bad", 0⟩
        initialStore).raised = none) ∧
    ((TelemetryFileHandler.reload
        ⟨Except.ok 5, Except.error OSErr.permissionError, Except.error "bad", 0⟩
        initialStore).ranUpdate = false) ∧
    ((TelemetryFileHandler.reload
        ⟨Except.ok 5, Except.error OSErr.permissionError, Except.error "bad", 0⟩
        initialStore).st.file_mtime
      = if (5 : Int) = initialStore.file_mtime then initialStore.file_mtime else 5) :=
  reload_abandoned_amended
    ⟨Except.ok 5, Except.error OSErr.permissionError, Except.error "bad", 0⟩
    initialStore trivial

/-- Counterexample to **C7** as stated: for the update of
`{"vehicles": []}` at time 100, the single channel receives exactly the
serialized frame of the stored enriched document, but the pull read
`/api/telemetry` — which re-serializes the stored document through
starlette's `JSONResponse` with compact separators — is NOT the identical
serialized document: `'{"vehicles": [], "timestamp": 100}'` vs
`'{"vehicles":[],"timestamp":100}'`. -/
theorem serialize_once_pull_push_cex :
    ((TelemetryStore.update 100
        { data := [], last_update := 0, file_mtime := 0, listeners := [[]] }
        (.ok (.obj [("vehicles", .arr [])]))).1.listeners
      = [[dumps (.obj (TelemetryStore.update 100
          { data := [], last_update := 0, file_mtime := 0, listeners := [[]] }
          (.ok (.obj [("vehicles", .arr [])]))).1.data)]]) ∧
    (api_telemetry (TelemetryStore.update 100
        { data := [], last_update := 0, file_mtime := 0, listeners := [[]] }
        (.ok (.obj [("vehicles", .arr [])]))).1
      ≠ dumps (.obj (TelemetryStore.update 100
          { data := [], last_update := 0, file_mtime := 0, listeners := [[]] }
          (.ok (.obj [("vehicles", .arr [])]))).1.data)) := by
  exact ⟨rfl, by decide⟩

/-- **C7 (amended).** The enriched document is serialized exactly once per
successful update for broadcast: every channel with available capacity
receives that one string, the serialization of the stored document.  The
Store stores the document itself, not the string; a pull read re-serializes
the same stored document per request through starlette's encoder, yielding
an equivalent document but not necessarily the identical byte string. -/
theorem serialize_once_amended (now : Nat) (st : StoreState)
    (fields : List (String × JVal)) (i : Nat) (hi : i < st.listeners.length)
    (hcap : st.listeners[i]!.length < 4) :
    ((TelemetryStore.update now st (.ok (.obj fields))).1.data
        = enrichTimestamp now fields) ∧
    ((TelemetryStore.update now st (.ok (.obj fields))).1.listeners[i]!
        = st.listeners[i]!
          ++ [dumps (.obj (TelemetryStore.update now st (.ok (.obj fields))).1.data)]) ∧
    (api_telemetry (TelemetryStore.update now st (.ok (.obj fields))).1
        = dumpsCompact
            (.obj (TelemetryStore.update now st (.ok (.obj fields))).1.data)) := by
  refine ⟨rfl, ?_, rfl⟩
  show (st.listeners.map
    (fun q => putNowait q (dumps (.obj (enrichTimestamp now fields)))))[i]! = _
  rw [getElem!_map_channels _ st.listeners i hi]
  unfold putNowait
  rw [if_pos hcap]
  rfl

/-- Witness for C7 (amended) at the update of `{"vehicles": []}` into a
store with one empty channel. -/
theorem serialize_once_amended_witness :
    (TelemetryStore.update 100
        { data := [], last_update := 0, file_mtime := 0, listeners := [[]] }
        (.ok (.obj [("vehicles", .arr [])]))).1.listeners[0]!
      = [dumps (.obj (TelemetryStore.update 100
          { data := [], last_update := 0, file_mtime := 0, listeners := [[]] }
          (.ok (.obj [("vehicles", .arr [])]))).1.data)] := by
  simpa using (serialize_once_amended 100
    { data := [], last_update := 0, file_mtime := 0, listeners := [[]] }
    [("vehicles", .arr [])] 0 (by decide) (by decide)).2.1

theorem find?_append_of_some {α : Type} (p : α → Bool) (l l' : List α) (b : α)
    (h : l.find? p = some b) : (l ++ l').find? p = some b := by
  induction l with
  | nil => simp at h
  | cons x xs ih =>
    by_cases hp : p x
    · rw [List.find?_cons_of_pos _ hp] at h
      rw [List.cons_append, List.find?_cons_of_pos _ hp]
      exact h
    · rw [List.find?_cons_of_neg _ hp] at h
      rw [List.cons_append, List.find?_cons_of_neg _ hp]
      exact ih h

theorem lookup_setObj_ne (hp : Heap) (a a' : Nat) (o : PyObj) (hne : a ≠ a') :
    (hp.setObj a' o).lookup a = hp.lookup a := by
  obtain ⟨objs, nx⟩ := hp
  unfold Heap.setObj Heap.lookup
  simp only
  induction objs with
  | nil => rfl
  | cons q rest ih =>
    simp only [List.map_cons]
    by_cases hq : q.1 = a'
    · rw [if_pos hq]
      rw [List.find?_cons_of_neg _ (by simpa using Ne.symm hne)]
      rw [List.find?_cons_of_neg _
        (by simp only [decide_eq_true_eq]; rw [hq]; exact Ne.symm hne)]
      exact ih
    · rw [if_neg hq]
      by_cases hqa : q.1 = a
      · rw [List.find?_cons_of_pos _ (by simpa using hqa),
          List.find?_cons_of_pos _ (by simpa using hqa)]
      · rw [List.find?_cons_of_neg _ (by simpa using hqa),
          List.find?_cons_of_neg _ (by simpa using hqa)]
        exact ih

theorem lookup_lt_next (hp : Heap) (a : Nat) (o : PyObj)
    (hwf : ∀ p ∈ hp.objs, p.1 < hp.next) (ha : hp.lookup a = some o) :
    a < hp.next := by
  unfold Heap.lookup at ha
  cases hfind : hp.objs.find? (fun p => decide (p.1 = a)) with
  | none => rw [hfind] at ha; simp at ha
  | some q =>
    have hq : q.1 = a := by simpa using List.find?_some hfind
    have hmem := List.mem_of_find?_eq_some hfind
    exact hq ▸ hwf q hmem

/-- Counterexample to **C6** as stated: `dict(self._data)` copies only the
top level.  In a heap where the live `_data` dict (address 0) maps
`"vehicles"` to the list at address 1, the dict returned by `get()` (fresh
address 2) still references that same list; the caller appending through
that reference changes the document observed via the store's own live
`_data`, so `get` does return live state at nesting depth 1. -/
theorem get_returns_shared_nested_state_cex :
    (dictGetH (TelemetryStore.getH
        ⟨[(0, .dict [("vehicles", .ref 1)]), (1, .pylist [.vint 1])], 2⟩ 0).1
      (TelemetryStore.getH
        ⟨[(0, .dict [("vehicles", .ref 1)]), (1, .pylist [.vint 1])], 2⟩ 0).2
      "vehicles" = some (.ref 1)) ∧
    (dumps (deepVal 10
        (listAppendH (TelemetryStore.getH
          ⟨[(0, .dict [("vehicles", .ref 1)]), (1, .pylist [.vint 1])], 2⟩ 0).1
          1 (.vint 99))
        (.ref 0))
      ≠ dumps (deepVal 10
        ⟨[(0, .dict [("vehicles", .ref 1)]), (1, .pylist [.vint 1])], 2⟩
        (.ref 0))) := by
  exact ⟨by decide, by decide⟩

/-- **C6 (amended).** `get()` returns a fresh top-level dict, not the live
`_data` object: the returned address is new, the live dict is unchanged by
the copy, and any top-level write through the returned dict leaves the
store's `_data` untouched.  The protection holds at the top level only —
nested mutable values are shared with the live document (see the
counterexample). -/
theorem get_top_level_copy_only (hp : Heap) (a : Nat)
    (fs : List (String × PyVal))
    (hwf : ∀ p ∈ hp.objs, p.1 < hp.next)
    (ha : hp.lookup a = some (.dict fs)) :
    ((TelemetryStore.getH hp a).2 ≠ a) ∧
    ((TelemetryStore.getH hp a).1.lookup a = some (.dict fs)) ∧
    (∀ k v, (dictSetH (TelemetryStore.getH hp a).1
        (TelemetryStore.getH hp a).2 k v).lookup a = some (.dict fs)) := by
  have halt := lookup_lt_next hp a (.dict fs) hwf ha
  obtain ⟨q, hfind, hq2⟩ :
      ∃ q, hp.objs.find? (fun p => decide (p.1 = a)) = some q
        ∧ q.2 = PyObj.dict fs := by
    unfold Heap.lookup at ha
    cases hfind : hp.objs.find? (fun p => decide (p.1 = a)) with
    | none => rw [hfind] at ha; simp at ha
    | some q =>
      rw [hfind] at ha
      exact ⟨q, rfl, by simpa using ha⟩
  have hgetH : TelemetryStore.getH hp a
      = (⟨hp.objs ++ [(hp.next, .dict fs)], hp.next + 1⟩, hp.next) := by
    unfold TelemetryStore.getH dictCopy
    rw [ha]
    rfl
  have hlook1 : (TelemetryStore.getH hp a).1.lookup a = some (.dict fs) := by
    rw [hgetH]
    unfold Heap.lookup
    simp only
    rw [find?_append_of_some _ hp.objs _ q hfind]
    simp [hq2]
  refine ⟨?_, hlook1, ?_⟩
  · rw [hgetH]
    exact fun h => absurd (h ▸ halt) (lt_irrefl a)
  · intro k v
    have hlookNext : (TelemetryStore.getH hp a).1.lookup hp.next
        = some (.dict fs) := by
      rw [hgetH]
      unfold Heap.lookup
      simp only
      have hnone : hp.objs.find? (fun p => decide (p.1 = hp.next)) = none := by
        rw [List.find?_eq_none]
        intro x hx
        simp only [decide_eq_true_eq]
        exact Nat.ne_of_lt (hwf x hx)
      rw [List.find?_append, hnone]
      simp [List.find?]
    unfold dictSetH
    rw [hgetH] at hlookNext ⊢
    rw [hlookNext]
    rw [lookup_setObj_ne _ a hp.next _ (Nat.ne_of_lt halt)]
    rw [← hgetH]
    exact hlook1

/-- Witness for C6 (amended): the concrete two-object heap — the copy gets
the fresh address 2 and a top-level write through it leaves the live dict
at address 0 untouched. -/
theorem get_top_level_copy_only_witness :
    ((TelemetryStore.getH
        ⟨[(0, .dict [("vehicles", .ref 1)]), (1, .pylist [.vint 1])], 2⟩ 0).2 ≠ 0) ∧
    ((dictSetH (TelemetryStore.getH
        ⟨[(0, .dict [("vehicles", .ref 1)]), (1, .pylist [.vint 1])], 2⟩ 0).1
      (TelemetryStore.getH
        ⟨[(0, .dict [("vehicles", .ref 1)]), (1, .pylist [.vint 1])], 2⟩ 0).2
      "x" .vnone).lookup 0 = some (.dict [("vehicles", .ref 1)])) :=
  ⟨(get_top_level_copy_only
      ⟨[(0, .dict [("vehicles", .ref 1)]), (1, .pylist [.vint 1])], 2⟩ 0
      [("vehicles", .ref 1)] (by decide) (by decide)).1,
   (get_top_level_copy_only
      ⟨[(0, .dict [("vehicles", .ref 1)]), (1, .pylist [.vint 1])], 2⟩ 0
      [("vehicles", .ref 1)] (by decide) (by decide)).2.2 "x" .vnone⟩

end TPF2
